import Mathlib

/-!
Verification development for the artifact resolution & provisioning
pipeline of `build_image.py` (manjaro-cloudinit).

The pipeline's logic is shallowly embedded: pure string processing is
translated into Lean functions, the network and the filesystem are
modelled as explicit inputs / state-machine interfaces, and external
process invocations (qemu-img, qemu-system-x86_64) are modelled as
abstract state transformers.  Theorems then check the specification's
claims against the embedded code.
-/

namespace BuildImage

/-! ## Hypervisor command templates (`main`, lines 547-576)

Both `cmd_linux` and `cmd_windows` are Python triple-quoted f-strings in
which every interior newline is escaped by a backslash (a line
continuation), so each template denotes a single-line command whose
words are separated by single spaces and which ends in one real newline.
We embed each template as its list of whitespace-separated tokens plus
the string obtained by joining them. -/

/-- The `-drive` argument token shared by both templates:
`file={cloud_image},if=virtio,media=disk,format=raw,cache=none`. -/
def driveTok (img : String) : String :=
  "file=" ++ img ++ ",if=virtio,media=disk,format=raw,cache=none"

/-- The guest-agent serial-port device argument (Linux template only). -/
def vserialTok : String :=
  "virtserialport,chardev=spicechannel0,name=com.redhat.spice.0"

/-- The spice vdagent chardev argument (Linux template only). -/
def spiceTok : String := "spicevmc,id=spicechannel0,name=vdagent"

/-- The `-nic` argument: user networking, host TCP port 8022 forwarded to
guest port 22. -/
def nicTok : String := "user,model=virtio-net-pci,hostfwd=tcp::8022-:22"

/-- Tokens of the `cmd_linux` template (lines 547-562), in order. -/
def cmdLinuxTokens (mem iso img : String) : List String :=
  ["qemu-system-x86_64", "-cpu", "kvm64", "-smp", "2", "-m", mem,
   "-k", "fr_be", "-machine", "q35", "-cdrom", iso,
   "-drive", driveTok img,
   "-device", "virtio-scsi-pci,id=virtio",
   "-enable-kvm",
   "-device", "virtio-serial-pci",
   "-device", vserialTok,
   "-chardev", spiceTok,
   "-nic", nicTok,
   "-vga", "qxl", "-boot", "c"]

/-- Tokens of the `cmd_windows` template (lines 564-576), in order. -/
def cmdWindowsTokens (mem iso img : String) : List String :=
  ["qemu-system-x86_64", "-cpu", "kvm64", "-smp", "2", "-m", mem,
   "-k", "fr_be", "-machine", "q35", "-cdrom", iso,
   "-drive", driveTok img,
   "-device", "virtio-scsi-pci,id=virtio",
   "-device", "virtio-serial-pci",
   "-nic", nicTok,
   "-vga", "qxl", "-boot", "c"]

/-- The `cmd_linux` string itself: its tokens joined by single spaces,
followed by the final newline of the triple-quoted literal. -/
def cmdLinux (mem iso img : String) : String :=
  String.intercalate " " (cmdLinuxTokens mem iso img) ++ "\n"

/-- The `cmd_windows` string itself. -/
def cmdWindows (mem iso img : String) : String :=
  String.intercalate " " (cmdWindowsTokens mem iso img) ++ "\n"

/-- The argument following the first `-boot` flag of a token list. -/
def bootArg : List String → Option String
  | [] => none
  | "-boot" :: x :: _ => some x
  | _ :: rest => bootArg rest

/-- Modelled from the spec: "a boot order in which the CD-ROM is booted
first".  Per the QEMU interface, `-boot d` boots from the first CD-ROM
and `-boot c` from the first hard disk, so a command's boot order starts
with the CD-ROM exactly when its `-boot` argument is `d`. -/
def bootsCdromFirst (tokens : List String) : Bool :=
  bootArg tokens == some "d"

/-! ## `Verbosity.v_error` and the unknown-distribution check
(lines 160-173 and 465-469) -/

/-- The ANSI-coloured severity prelude printed by `Verbosity.v_error`
in front of the caller's message. -/
def errorPrelude : String :=
  "\x1b[34m[\x1b[31mERROR\x1b[34m] \x1b[0m "

/-- What `Verbosity.v_error` does: what it prints, and the process exit
status it then terminates with. -/
structure ErrorExit where
  printed : String
  code : Nat
  deriving DecidableEq

/-- `Verbosity.v_error(message)`: prints the coloured error line
containing `message`, sets `self.error`, and then calls `sys.exit(0)`,
terminating the process with exit status 0. -/
def v_error (message : String) : ErrorExit :=
  { printed := errorPrelude ++ message, code := 0 }

/-- The keys of the `DISTRO_OS` catalog (lines 612-623). -/
def distroKeys : List String := ["archlinux", "manjaro"]

/-- The message printed when `--distro` names an unregistered
distribution (lines 466-469). -/
def unknownDistroMsg : String :=
  "The value behind the argument \x27--distro\x27 isn\x27t part of "
    ++ "the available Linux distributions.\n       Please use "
    ++ "the argument -l/--list to view of the available Linux "
    ++ "distributions."

/-- The unknown-distribution check of `main` (lines 465-469): an
unregistered name is routed to `Verbosity.v_error`, which terminates
the process; a registered name continues the pipeline. -/
def checkDistro (d : String) : Option ErrorExit :=
  if distroKeys.contains d then none else some (v_error unknownDistroMsg)

/-! ## Candidate selection (`main`, lines 493-494)

`filtered_values.sort(reverse=True); html = filtered_values[0]`: Python
sorts the candidate strings in descending lexicographic (code-point)
order and takes the first.  Python's code-point order on strings is the
lexicographic order on their character lists. -/

/-- Insert a string into a descending-sorted list, keeping it sorted. -/
def insertDesc (x : String) : List String → List String
  | [] => [x]
  | y :: ys => if y.data ≤ x.data then x :: y :: ys else y :: insertDesc x ys

/-- Sort a list of strings in descending lexicographic order
(`list.sort(reverse=True)`). -/
def sortDesc (l : List String) : List String := l.foldr insertDesc []

/-- The selection step: sort descending, take the first element
(`filtered_values[0]`); `none` only on an empty list. -/
def selectCandidate (l : List String) : Option String := (sortDesc l).head?

lemma sortDesc_cons_max (l : List String) :
    ∀ a : String, ∃ m r, sortDesc (a :: l) = m :: r ∧ m ∈ a :: l
      ∧ ∀ x ∈ a :: l, x.data ≤ m.data := by
  induction l with
  | nil =>
    intro a
    exact ⟨a, [], rfl, List.mem_singleton.mpr rfl, by
      intro x hx
      rw [List.mem_singleton.mp hx]⟩
  | cons b l ih =>
    intro a
    obtain ⟨m', r', hsort, hmem, hmax⟩ := ih b
    have hstep : sortDesc (a :: b :: l) = insertDesc a (sortDesc (b :: l)) := rfl
    rw [hsort] at hstep
    by_cases hcmp : m'.data ≤ a.data
    · refine ⟨a, m' :: r', ?_, List.mem_cons_self a _, ?_⟩
      · rw [hstep, insertDesc, if_pos hcmp]
      · intro x hx
        rcases List.mem_cons.mp hx with hx | hx
        · rw [hx]
        · exact le_trans (hmax x hx) hcmp
    · refine ⟨m', insertDesc a r', ?_, List.mem_cons_of_mem a hmem, ?_⟩
      · rw [hstep, insertDesc, if_neg hcmp]
      · intro x hx
        rcases List.mem_cons.mp hx with hx | hx
        · rw [hx]; exact le_of_not_le hcmp
        · exact hmax x hx

/-! ## Theorems for the claims -/

/-- C1: the spec claims every pipeline failure is reported and the process
exits with a NON-ZERO status.  The report does happen, but
`Verbosity.v_error` terminates via `sys.exit(0)`: every failure routed
through it (unknown distribution, empty candidate set, provisioning
failure, launch failure) exits with status 0.  Shown here both for
`v_error` in general and for the unknown-distribution check evaluated at
the unregistered name "debian". -/
theorem c1_error_exit_status_zero :
    (∀ message : String, (v_error message).code = 0
      ∧ (v_error message).printed = errorPrelude ++ message)
    ∧ (checkDistro "debian").map ErrorExit.code = some 0 := by
  constructor
  · intro message
    exact ⟨rfl, rfl⟩
  · decide

/-- C2 counterexample: both command templates pass `c` (boot from the
first hard disk), not `d` (boot from the first CD-ROM), as the argument
of `-boot`, so the built invocation does not put the CD-ROM first in the
boot order. -/
theorem c2_boot_order_counterexample :
    bootsCdromFirst (cmdLinuxTokens "2048" "alpha.iso" "alpha.img") = false
    ∧ bootsCdromFirst (cmdWindowsTokens "2048" "alpha.iso" "alpha.img") = false
    ∧ bootArg (cmdLinuxTokens "2048" "alpha.iso" "alpha.img") = some "c"
    ∧ bootArg (cmdWindowsTokens "2048" "alpha.iso" "alpha.img") = some "c" := by
  decide

/-- C2 (amended): for both host platforms the built invocation configures
2 virtual CPUs (`-smp 2`), the requested memory (`-m {memory}`), the
resolved ISO as the CD-ROM device, the provisioned image as a raw virtio
disk, user networking forwarding host TCP port 8022 to guest port 22, a
QXL display — and a boot order in which the first HARD DISK is booted
first (`-boot c`), not the CD-ROM. -/
theorem c2_command_wiring (mem iso img : String) :
    ((cmdLinuxTokens mem iso img).get? 3 = some "-smp"
      ∧ (cmdLinuxTokens mem iso img).get? 4 = some "2"
      ∧ (cmdLinuxTokens mem iso img).get? 5 = some "-m"
      ∧ (cmdLinuxTokens mem iso img).get? 6 = some mem
      ∧ (cmdLinuxTokens mem iso img).get? 11 = some "-cdrom"
      ∧ (cmdLinuxTokens mem iso img).get? 12 = some iso
      ∧ (cmdLinuxTokens mem iso img).get? 13 = some "-drive"
      ∧ (cmdLinuxTokens mem iso img).get? 14 = some (driveTok img)
      ∧ (cmdLinuxTokens mem iso img).get? 24 = some "-nic"
      ∧ (cmdLinuxTokens mem iso img).get? 25 = some nicTok
      ∧ (cmdLinuxTokens mem iso img).get? 26 = some "-vga"
      ∧ (cmdLinuxTokens mem iso img).get? 27 = some "qxl"
      ∧ (cmdLinuxTokens mem iso img).get? 28 = some "-boot"
      ∧ (cmdLinuxTokens mem iso img).get? 29 = some "c")
    ∧ ((cmdWindowsTokens mem iso img).get? 3 = some "-smp"
      ∧ (cmdWindowsTokens mem iso img).get? 4 = some "2"
      ∧ (cmdWindowsTokens mem iso img).get? 5 = some "-m"
      ∧ (cmdWindowsTokens mem iso img).get? 6 = some mem
      ∧ (cmdWindowsTokens mem iso img).get? 11 = some "-cdrom"
      ∧ (cmdWindowsTokens mem iso img).get? 12 = some iso
      ∧ (cmdWindowsTokens mem iso img).get? 13 = some "-drive"
      ∧ (cmdWindowsTokens mem iso img).get? 14 = some (driveTok img)
      ∧ (cmdWindowsTokens mem iso img).get? 19 = some "-nic"
      ∧ (cmdWindowsTokens mem iso img).get? 20 = some nicTok
      ∧ (cmdWindowsTokens mem iso img).get? 21 = some "-vga"
      ∧ (cmdWindowsTokens mem iso img).get? 22 = some "qxl"
      ∧ (cmdWindowsTokens mem iso img).get? 23 = some "-boot"
      ∧ (cmdWindowsTokens mem iso img).get? 24 = some "c") :=
  ⟨⟨rfl, rfl, rfl, rfl, rfl, rfl, rfl, rfl, rfl, rfl, rfl, rfl, rfl, rfl⟩,
   ⟨rfl, rfl, rfl, rfl, rfl, rfl, rfl, rfl, rfl, rfl, rfl, rfl, rfl, rfl⟩⟩

/-- C7: on a non-empty filtered candidate list the selection step returns
the lexicographically greatest candidate (descending sort of the full
candidate strings, then the first element); being a pure function of the
list, the selection is deterministic for a fixed listing body. -/
theorem c7_select_greatest (l : List String) (h : l ≠ []) :
    ∃ m, selectCandidate l = some m ∧ m ∈ l ∧ ∀ x ∈ l, x.data ≤ m.data := by
  match l with
  | [] => exact absurd rfl h
  | a :: l =>
    obtain ⟨m, r, hsort, hmem, hmax⟩ := sortDesc_cons_max l a
    exact ⟨m, by rw [selectCandidate, hsort]; rfl, hmem, hmax⟩

/-- C7 witness: the end-to-end scenario of the spec, three archlinux ISO
names; the lexicographically greatest one, `archlinux-2024.03.01-x86_64.iso`,
is selected. -/
theorem c7_select_greatest_witness :
    ∃ m, selectCandidate ["archlinux-2024.01.01-x86_64.iso",
        "archlinux-2024.03.01-x86_64.iso", "archlinux-2024.02.15-x86_64.iso"]
      = some m
    ∧ m ∈ ["archlinux-2024.01.01-x86_64.iso", "archlinux-2024.03.01-x86_64.iso",
        "archlinux-2024.02.15-x86_64.iso"]
    ∧ ∀ x ∈ ["archlinux-2024.01.01-x86_64.iso", "archlinux-2024.03.01-x86_64.iso",
        "archlinux-2024.02.15-x86_64.iso"], x.data ≤ m.data :=
  c7_select_greatest _ (by decide)

/-! ## Version extraction (`main`, lines 505-508)

`re.compile(r"(([0-9]+\.[0-9]+\.[0-9]+)|([0-9]+\.[0-9]+)|([0-9]+T))").search(iso_image)`
scans for the leftmost starting position at which one of the three
alternatives matches, trying the alternatives in order at each position.
Backtracking inside an alternative never helps here: `[0-9]+` is greedy
and shortening it only exposes another digit where the pattern next
requires `.` or `T`, so the maximal digit run is the only viable choice
and the matcher below is exact. -/

/-- Split off the maximal digit run at the head; `none` when it is empty
(the `[0-9]+` of the pattern needs at least one digit). -/
def matchDigits : List Char → Option (List Char × List Char)
  | [] => none
  | c :: rest =>
    if c.isDigit then
      match matchDigits rest with
      | some (r, tail) => some (c :: r, tail)
      | none => some ([c], rest)
    else none

/-- Alternative 1, `[0-9]+\.[0-9]+\.[0-9]+`, anchored at the head of `s`;
returns the matched characters. -/
def matchMMP (s : List Char) : Option (List Char) :=
  match matchDigits s with
  | some (r1, '.' :: rest1) =>
    match matchDigits rest1 with
    | some (r2, '.' :: rest2) =>
      match matchDigits rest2 with
      | some (r3, _) => some (r1 ++ '.' :: (r2 ++ '.' :: r3))
      | none => none
    | _ => none
  | _ => none

/-- Alternative 2, `[0-9]+\.[0-9]+`, anchored at the head of `s`. -/
def matchMM (s : List Char) : Option (List Char) :=
  match matchDigits s with
  | some (r1, '.' :: rest1) =>
    match matchDigits rest1 with
    | some (r2, _) => some (r1 ++ '.' :: r2)
    | _ => none
  | _ => none

/-- Alternative 3, `[0-9]+T`, anchored at the head of `s`. -/
def matchIntT (s : List Char) : Option (List Char) :=
  match matchDigits s with
  | some (r, 'T' :: _) => some (r ++ ['T'])
  | _ => none

/-- The whole alternation tried at one position: Python attempts the
alternatives in their written order. -/
def matchAlt (s : List Char) : Option (List Char) :=
  match matchMMP s with
  | some m => some m
  | none =>
    match matchMM s with
    | some m => some m
    | none => matchIntT s

/-- `re.search`: try the alternation at each position, leftmost first. -/
def searchVersion : List Char → Option (List Char)
  | [] => none
  | c :: rest =>
    match matchAlt (c :: rest) with
    | some m => some m
    | none => searchVersion rest

/-- The version extraction of `main` (lines 505-508): `.group(0)` of the
leftmost match; `none` models the `search` miss (on which the code then
crashes with an `AttributeError` on `.group`). -/
def extractVersion (fileName : String) : Option String :=
  (searchVersion fileName.data).map String.mk

/-- Leftmost search restricted to a single alternative. -/
def searchWith (p : List Char → Option (List Char)) : List Char → Option (List Char)
  | [] => none
  | c :: rest =>
    match p (c :: rest) with
    | some m => some m
    | none => searchWith p rest

/-- Modelled from the spec: "the first pattern in this precedence order
that matches anywhere in fileName wins and the leftmost match of that
pattern is used" — search the whole string with MAJOR.MINOR.PATCH first,
only then with MAJOR.MINOR, only then with the integer-`T` pattern. -/
def extractClaim (fileName : String) : Option String :=
  (match searchWith matchMMP fileName.data with
    | some m => some m
    | none =>
      match searchWith matchMM fileName.data with
      | some m => some m
      | none => searchWith matchIntT fileName.data).map String.mk

lemma searchVersion_leftmost :
    ∀ (l m : List Char), searchVersion l = some m →
      ∃ i, matchAlt (l.drop i) = some m ∧ ∀ j < i, matchAlt (l.drop j) = none := by
  intro l
  induction l with
  | nil => intro m h; simp [searchVersion] at h
  | cons c rest ih =>
    intro m h
    cases hm : matchAlt (c :: rest) with
    | some m0 =>
      simp only [searchVersion, hm] at h
      refine ⟨0, ?_, ?_⟩
      · rw [List.drop_zero, hm, h]
      · intro j hj; omega
    | none =>
      simp only [searchVersion, hm] at h
      obtain ⟨i, h1, h2⟩ := ih m h
      refine ⟨i + 1, ?_, ?_⟩
      · simpa using h1
      · intro j hj
        cases j with
        | zero => simpa using hm
        | succ k =>
          have := h2 k (by omega)
          simpa using this

/-- C3 counterexample: in `image-1.2-v3.4.5.iso` the MAJOR.MINOR.PATCH
pattern matches (`3.4.5`), so under the claim's precedence-first rule it
should win; the code's `re.search` instead returns the leftmost match of
the whole alternation, `1.2`. -/
theorem c3_precedence_counterexample :
    extractVersion "image-1.2-v3.4.5.iso" = some "1.2"
    ∧ extractClaim "image-1.2-v3.4.5.iso" = some "3.4.5"
    ∧ extractVersion "image-1.2-v3.4.5.iso" ≠ extractClaim "image-1.2-v3.4.5.iso" := by
  decide

/-- C3 (amended): the extractor returns the leftmost position at which
any of the three alternatives (tried in order MAJOR.MINOR.PATCH,
MAJOR.MINOR, integer-`T` at that position) matches, and fails only when
no alternative matches at any position; the spec's four examples hold as
stated. -/
theorem c3_extract_leftmost :
    (extractVersion "archlinux-2024.04.01-x86_64.iso" = some "2024.04.01"
      ∧ extractVersion "distro-24.04-amd64.iso" = some "24.04"
      ∧ extractVersion "image-20240401T-x86.iso" = some "20240401T"
      ∧ extractVersion "noversionhere.iso" = none)
    ∧ ∀ (f v : String), extractVersion f = some v →
        ∃ i, matchAlt (f.data.drop i) = some v.data
          ∧ ∀ j < i, matchAlt (f.data.drop j) = none := by
  refine ⟨by decide, ?_⟩
  intro f v h
  rw [extractVersion] at h
  cases hs : searchVersion f.data with
  | none =>
    rw [hs] at h
    exact Option.noConfusion h
  | some m =>
    rw [hs] at h
    have h' : String.mk m = v := Option.some.inj h
    obtain ⟨i, h1, h2⟩ := searchVersion_leftmost f.data m hs
    refine ⟨i, ?_, h2⟩
    rw [← h']
    exact h1

/-- C3 witness: the leftmost-match property applied at the concrete
filename `distro-24.04-amd64.iso` and its extracted version `24.04`. -/
theorem c3_extract_leftmost_witness :
    ∃ i, matchAlt ("distro-24.04-amd64.iso".data.drop i) = some "24.04".data
      ∧ ∀ j < i, matchAlt ("distro-24.04-amd64.iso".data.drop j) = none :=
  c3_extract_leftmost.2 "distro-24.04-amd64.iso" "24.04" (by decide)

/-! ## A small regex core and the candidate filter (`main`, lines 482-485)

The catalog's `filter_value` patterns are ordinary regexes built from
literals, `[0-9]`, the any-character dot, `+`, `*` and a final `$`
anchor.  We interpret them with Brzozowski derivatives: `rmatch r s`
decides whether `r` matches all of `s`.  Since both catalog patterns end
in `$`, Python's `re.match(p, v)` (anchored at the start) succeeds
exactly when the pattern body matches all of `v`, and `re.search(p, v)`
succeeds exactly when it matches some whole suffix of `v`. -/

/-- Regular expressions over single-character predicates. -/
inductive Rx where
  | emp : Rx
  | eps : Rx
  | ch : (Char → Bool) → Rx
  | seq : Rx → Rx → Rx
  | alt : Rx → Rx → Rx
  | star : Rx → Rx

/-- Does the regex accept the empty string? -/
def Rx.nullable : Rx → Bool
  | .emp => false
  | .eps => true
  | .ch _ => false
  | .seq a b => a.nullable && b.nullable
  | .alt a b => a.nullable || b.nullable
  | .star _ => true

/-- Brzozowski derivative with respect to one character. -/
def Rx.deriv : Rx → Char → Rx
  | .emp, _ => .emp
  | .eps, _ => .emp
  | .ch p, c => if p c then .eps else .emp
  | .seq a b, c =>
    if a.nullable then .alt (.seq (a.deriv c) b) (b.deriv c)
    else .seq (a.deriv c) b
  | .alt a b, c => .alt (a.deriv c) (b.deriv c)
  | .star a, c => .seq (a.deriv c) (.star a)

/-- Whole-string match. -/
def rmatch (r : Rx) (s : List Char) : Bool :=
  (s.foldl Rx.deriv r).nullable

/-- A literal character. -/
def rchar (c : Char) : Rx := .ch (fun d => d == c)

/-- A literal string. -/
def rstr (s : String) : Rx := s.data.foldr (fun c r => .seq (rchar c) r) .eps

/-- The `[0-9]` character class. -/
def rdigit : Rx := .ch Char.isDigit

/-- The regex dot: any character (`re.S` lets it match newlines too). -/
def rany : Rx := .ch (fun _ => true)

/-- `r+` as `r r*`. -/
def rplus (r : Rx) : Rx := .seq r (.star r)

/-- The archlinux `filter_value` pattern
`archlinux-[0-9]+.[0-9]+.[0-9]+-.*.iso$` (line 614) minus its final `$`
anchor; the three mid-pattern dots and the dot before `iso` are the
unescaped any-character dot. -/
def archFilterRx : Rx :=
  .seq (rstr "archlinux-")
    (.seq (rplus rdigit)
      (.seq rany
        (.seq (rplus rdigit)
          (.seq rany
            (.seq (rplus rdigit)
              (.seq (rchar '-')
                (.seq (.star rany)
                  (.seq rany (rstr "iso")))))))))

/-- Python `re.match(p, v)` for a `$`-anchored pattern `p`: the pattern
body must match starting at the beginning of `v` and, because of the
anchor, extend to its end. -/
def pyMatchEnd (r : Rx) (v : String) : Bool := rmatch r v.data

/-- Modelled from the spec: the pattern "matches anywhere in the string"
— `re.search` semantics for a `$`-anchored pattern: the pattern body
matches some whole suffix of `v`. -/
def pySearchEnd (r : Rx) (v : String) : Bool :=
  (List.range (v.data.length + 1)).any (fun i => rmatch r (v.data.drop i))

/-- The filter step of `main` (lines 482-485):
`filter(lambda v: re.match(filter_value, v), result)`. -/
def filterValues (r : Rx) (vs : List String) : List String :=
  vs.filter (fun v => pyMatchEnd r v)

/-- Modelled from the spec: keep the values in which the pattern matches
anywhere. -/
def filterValuesAnywhere (r : Rx) (vs : List String) : List String :=
  vs.filter (fun v => pySearchEnd r v)

/-- C5 counterexample: the relative link `./archlinux-2024.04.01-x86_64.iso`
contains a match of the archlinux filter pattern (from position 2 on) but
does not match at position 0, so the code's anchored `re.match` filter
drops it while the claim's match-anywhere filter keeps it. -/
theorem c5_match_anchored_counterexample :
    filterValues archFilterRx ["./archlinux-2024.04.01-x86_64.iso"] = []
    ∧ filterValuesAnywhere archFilterRx ["./archlinux-2024.04.01-x86_64.iso"]
      = ["./archlinux-2024.04.01-x86_64.iso"] := by
  decide

/-- C5 (amended): the filtering step keeps exactly those extracted values
in which the entry's filter pattern matches STARTING AT THE BEGINNING of
the string (Python `re.match` is anchored); concretely, a name matching
from position 0 is kept and one whose only match starts later is
dropped. -/
theorem c5_filter_anchored :
    (∀ (r : Rx) (vs : List String) (v : String),
      v ∈ filterValues r vs ↔ v ∈ vs ∧ pyMatchEnd r v = true)
    ∧ filterValues archFilterRx
        ["archlinux-2024.04.01-x86_64.iso", "other.txt",
         "./archlinux-2024.04.01-x86_64.iso"]
      = ["archlinux-2024.04.01-x86_64.iso"] := by
  constructor
  · intro r vs v
    exact List.mem_filter
  · decide

/-- C5 witness: the membership characterisation applied to a concrete
kept value. -/
theorem c5_filter_anchored_witness :
    "archlinux-2024.04.01-x86_64.iso"
      ∈ filterValues archFilterRx ["archlinux-2024.04.01-x86_64.iso"] :=
  (c5_filter_anchored.1 archFilterRx ["archlinux-2024.04.01-x86_64.iso"]
    "archlinux-2024.04.01-x86_64.iso").mpr ⟨by decide, by decide⟩

/-! ## HTTP responses, the listing fetch and the downloader
(`download_file`, lines 267-294; `get_url_paths`, lines 300-330)

The network is modelled as an input: the `requests.get` call of each
function receives the `Response` the server would send.  `requests`
defines `Response.ok` as `status_code < 400` (`raise_for_status` raises
only for 4xx/5xx), so every 1xx/2xx/3xx response counts as success. -/

/-- An HTTP response: status code and body. -/
structure Response where
  status : Nat
  body : String

/-- `requests.Response.ok`: true exactly when the status is below 400. -/
def respOk (r : Response) : Bool := r.status < 400

/-- Result of `get_url_paths`: the extracted link values, or the
`requests.HTTPError` raised by `response.raise_for_status()`. -/
inductive FetchResult where
  | links : List String → FetchResult
  | httpError : Nat → FetchResult
  deriving DecidableEq

/-- `get_url_paths` (lines 300-330) applied to the fetched response: when
`response.ok` it extracts all matches of the link pattern from the body
(`findall` abstracts `re.findall(pattern_string, text, re.S)`), otherwise
`raise_for_status()` raises an `HTTPError` carrying the status. -/
def get_url_paths (findall : String → List String) (resp : Response) : FetchResult :=
  if respOk resp then .links (findall resp.body) else .httpError resp.status

/-- Characters up to the first `"`, with the remainder after it; `none`
when no `"` follows (the non-greedy `(.*?)"` then cannot complete). -/
def splitAtQuote : List Char → Option (List Char × List Char)
  | [] => none
  | '"' :: rest => some (([] : List Char), rest)
  | c :: rest =>
    match splitAtQuote rest with
    | some p => some (c :: p.1, p.2)
    | none => none

/-- `re.findall('href="(.*?)"', text, re.S)`, the archlinux `url_pattern`
(line 616): capture groups of the successive non-overlapping leftmost
matches, scanning left to right and resuming after each closing quote.
The fuel argument only bounds the recursion; every step consumes at
least one character, so `text.length` steps suffice. -/
def findHrefsGo : Nat → List Char → List String
  | 0, _ => []
  | _ + 1, [] => []
  | fuel + 1, 'h' :: 'r' :: 'e' :: 'f' :: '=' :: '"' :: rest =>
    (match splitAtQuote rest with
      | some p => String.mk p.1 :: findHrefsGo fuel p.2
      | none => [])
  | fuel + 1, _ :: rest => findHrefsGo fuel rest

/-- All values captured by the archlinux link pattern. -/
def findHrefs (s : String) : List String := findHrefsGo s.data.length s.data

/-- The value a Python function call produces: a returned value (where
`ret none` is the implicit `None` of falling off the end of the
function) or a raised `HTTPError` carrying the status. -/
inductive PyRet (α : Type) where
  | ret : α → PyRet α
  | raised : Nat → PyRet α
  deriving DecidableEq

/-- The filesystem interface `download_file` consumes: existence check,
delete-if-exists and create/write, over an abstract state `σ`.  The code
re-queries the real filesystem after writing, so nothing ties the result
of `isFile` after `write` to the write itself. -/
structure FsOps (σ : Type) where
  isFile : σ → String → Bool
  unlink : σ → String → σ
  write : σ → String → String → σ

/-- `download_file` message for a pre-existing file (line 281). -/
def alreadyMsg (image : String) : String :=
  "File \x27" ++ image ++ "\x27 already exist."

/-- `download_file` message for a completed download (line 292). -/
def downloadedMsg (image : String) : String :=
  "File \x27" ++ image ++ "\x27 downloaded."

/-- The part of `download_file` from the `requests.get` call on (lines
283-294); the middle component counts network transfers, and one has
happened.  On an `ok` response the body is streamed to `image` in order,
chunk by chunk, and then the file's existence is re-checked: present
returns the success tuple, absent falls off the end of the function
(Python's implicit `None`).  On a non-`ok` response
`response.raise_for_status()` raises before the `return` completes. -/
def downloadBody {σ : Type} (M : FsOps σ) (image : String) (resp : Response)
    (s : σ) : σ × Nat × PyRet (Option (Bool × String)) :=
  if respOk resp then
    let s2 := M.write s image resp.body
    if M.isFile s2 image then (s2, 1, .ret (some (false, downloadedMsg image)))
    else (s2, 1, .ret none)
  else (s, 1, .raised resp.status)

/-- `download_file` (lines 267-294): with `force` the destination is
unlinked (`missing_ok=True`, total) and the download proceeds; without
`force` a pre-existing file returns the already-present tuple before any
network call (transfer count 0); otherwise the body runs. -/
def download_file {σ : Type} (M : FsOps σ) (force : Bool) (image url : String)
    (resp : Response) (s : σ) : σ × Nat × PyRet (Option (Bool × String)) :=
  if force then downloadBody M image resp (M.unlink s image)
  else if M.isFile s image then (s, 0, .ret (some (false, alreadyMsg image)))
  else downloadBody M image resp s

/-- Concrete filesystem states: a map from path to file content. -/
def Fs : Type := String → Option String

/-- The standard POSIX-like behaviour of the consumed filesystem
operations: a file exists when it has content, unlink removes it (a
no-op when absent), write creates it with the written content. -/
def realFs : FsOps Fs where
  isFile := fun s p => (s p).isSome
  unlink := fun s p => fun q => if q = p then none else s q
  write := fun s p content => fun q => if q = p then some content else s q

/-- A filesystem on which the written file is not there afterwards (the
file vanishes between the chunked write and the re-check — the code
itself guarantees nothing about the re-query). -/
def ghostFs : FsOps Unit where
  isFile := fun _ _ => false
  unlink := fun s _ => s
  write := fun s _ _ => s

/-- C4 counterexample: a 304 response is not in the 2xx range, yet
`response.ok` is true for it, so the listing fetch extracts links from
its body and the downloader writes its body to disk — neither treats it
as a failure. -/
theorem c4_redirect_counterexample :
    get_url_paths findHrefs ⟨304, "<a href=\"beta.iso\">"⟩ = .links ["beta.iso"]
    ∧ (download_file realFs false "beta.iso" "u" ⟨304, "BODY"⟩ (fun _ => none)).2
      = (1, .ret (some (false, downloadedMsg "beta.iso")))
    ∧ (download_file realFs false "beta.iso" "u" ⟨304, "BODY"⟩ (fun _ => none)).1
        "beta.iso" = some "BODY" := by
  refine ⟨by decide, by decide, by decide⟩

/-- C4 (amended): the failure threshold is status 400, not the end of
the 2xx range: every response with status at least 400 makes the listing
fetch raise without extracting links and makes the downloader raise
without writing (the state comes back unchanged), while every status
below 400 — 3xx included — is treated as success. -/
theorem c4_status_threshold :
    (∀ (findall : String → List String) (resp : Response),
      400 ≤ resp.status → get_url_paths findall resp = .httpError resp.status)
    ∧ (∀ (σ : Type) (M : FsOps σ) (s : σ) (image : String) (resp : Response),
      400 ≤ resp.status → downloadBody M image resp s = (s, 1, .raised resp.status)) := by
  constructor
  · intro findall resp h
    have hok : respOk resp = false := by
      simp only [respOk, decide_eq_false_iff_not]
      omega
    rw [get_url_paths, hok]
    rfl
  · intro σ M s image resp h
    have hok : respOk resp = false := by
      simp only [respOk, decide_eq_false_iff_not]
      omega
    rw [downloadBody, hok]
    rfl

/-- C4 witness: the threshold behaviour at a concrete 404 response. -/
theorem c4_status_threshold_witness :
    get_url_paths findHrefs ⟨404, "<a href=\"beta.iso\">"⟩ = .httpError 404
    ∧ downloadBody realFs "beta.iso" ⟨404, "B"⟩ (fun _ => none)
      = ((fun _ => none), 1, .raised 404) :=
  ⟨c4_status_threshold.1 findHrefs ⟨404, "<a href=\"beta.iso\">"⟩ (by decide),
   c4_status_threshold.2 Fs realFs (fun _ => none) "beta.iso" ⟨404, "B"⟩ (by decide)⟩

/-- C6: with `force` false, a pre-existing destination returns the
already-present outcome with zero transfers and an unchanged filesystem;
and a fresh download followed by a second `force`-less call performs
exactly one transfer in total, the second call returning already-present
and leaving the file byte-identical (the state is returned untouched). -/
theorem c6_download_idempotent :
    ∀ (s : Fs) (image url : String) (resp : Response),
      (realFs.isFile s image = true →
        download_file realFs false image url resp s
          = (s, 0, .ret (some (false, alreadyMsg image))))
      ∧ (s image = none → respOk resp = true →
        download_file realFs false image url resp s
          = (realFs.write s image resp.body, 1,
              .ret (some (false, downloadedMsg image)))
        ∧ ∀ (url2 : String) (resp2 : Response),
            download_file realFs false image url2 resp2
                (realFs.write s image resp.body)
              = (realFs.write s image resp.body, 0,
                  .ret (some (false, alreadyMsg image)))) := by
  intro s image url resp
  constructor
  · intro h
    rw [download_file, if_neg Bool.false_ne_true, if_pos h]
  · intro h1 h2
    have hnot : realFs.isFile s image = false := by
      simp [realFs, h1]
    have hyes : realFs.isFile (realFs.write s image resp.body) image = true := by
      simp [realFs]
    constructor
    · rw [download_file, if_neg Bool.false_ne_true, hnot]
      simp only [Bool.false_eq_true, if_false]
      rw [downloadBody, h2]
      simp only [if_true, hyes]
    · intro url2 resp2
      rw [download_file, if_neg Bool.false_ne_true, if_pos hyes]

/-- C6 witness: a download into an empty filesystem followed by a second
call against the same destination. -/
theorem c6_download_idempotent_witness :
    download_file realFs false "a.iso" "u" ⟨200, "B"⟩ (fun _ => none)
      = (realFs.write (fun _ => none) "a.iso" "B", 1,
          .ret (some (false, downloadedMsg "a.iso")))
    ∧ download_file realFs false "a.iso" "u2" ⟨500, "X"⟩
        (realFs.write (fun _ => none) "a.iso" "B")
      = (realFs.write (fun _ => none) "a.iso" "B", 0,
          .ret (some (false, alreadyMsg "a.iso"))) :=
  ⟨((c6_download_idempotent (fun _ => none) "a.iso" "u" ⟨200, "B"⟩).2 rfl (by decide)).1,
   ((c6_download_idempotent (fun _ => none) "a.iso" "u" ⟨200, "B"⟩).2 rfl (by decide)).2
     "u2" ⟨500, "X"⟩⟩

/-- C10: when `force` is false, no file pre-exists at the destination,
the response is successful, but the destination does not exist after the
chunked write completes, `download_file` falls through every branch and
produces Python's implicit `None` instead of a `(flag, message)` tuple —
the caller's `error, message = download_file(...)` unpacking then fails. -/
theorem c10_download_none_fallthrough :
    ∀ (σ : Type) (M : FsOps σ) (s : σ) (image url : String) (resp : Response),
      M.isFile s image = false → respOk resp = true →
      M.isFile (M.write s image resp.body) image = false →
      download_file M false image url resp s
        = (M.write s image resp.body, 1, .ret none) := by
  intro σ M s image url resp h1 h2 h3
  rw [download_file, if_neg Bool.false_ne_true, h1]
  simp only [Bool.false_eq_true, if_false]
  rw [downloadBody, h2]
  simp only [if_true, h3]
  rfl

/-- C10 witness: on the vanishing filesystem the fall-through is reached
and the function returns `None`. -/
theorem c10_download_none_fallthrough_witness :
    download_file ghostFs false "a.iso" "u" ⟨200, "B"⟩ ()
      = ((), 1, .ret none) :=
  c10_download_none_fallthrough Unit ghostFs () "a.iso" "u" ⟨200, "B"⟩
    rfl (by decide) rfl

/-! ## Image provisioning (`main`, lines 523-544) -/

/-- Outcome of the provisioning step. -/
inductive ProvisionOutcome where
  | created : ProvisionOutcome
  | toolError : ProvisionOutcome
  | missingAfterCreate : ProvisionOutcome
  deriving DecidableEq

/-- The image-provisioning step of `main` (lines 523-544): remove any
pre-existing cloud image (`pathlib.Path(...).unlink(missing_ok=True)`, a
total operation), run `qemu-img create -f raw` through
`subprocess.run(check=True, ...)` — modelled as the state transformer
`tool`, whose Bool result is true when the run raised — and, when the
tool did not raise, double-check that the image file now exists,
reporting an error through `Verbosity.v_error` when it does not even
though the tool reported success. -/
def provisionImage {σ : Type} (M : FsOps σ) (s : σ) (cloudImage : String)
    (tool : σ → σ × Bool) : σ × ProvisionOutcome :=
  let s1 := M.unlink s cloudImage
  let p := tool s1
  if p.2 then (p.1, .toolError)
  else if M.isFile p.1 cloudImage then (p.1, .created)
  else (p.1, .missingAfterCreate)

/-- A creation tool that reports success but leaves the filesystem
untouched. -/
def noopTool : Fs → Fs × Bool := fun s => (s, false)

/-- C8: provisioning always deletes any pre-existing file at the image
path first (the unlink is total, so a missing file is not an error, and
the state handed to the tool has nothing at the path), then invokes the
tool, and even when the tool reports success the outcome is a failure
unless a file exists at the path afterwards; when it does exist the
outcome is success. -/
theorem c8_provision_postcondition :
    ∀ (s : Fs) (path : String) (tool : Fs → Fs × Bool) (s2 : Fs),
      (realFs.unlink s path) path = none
      ∧ (tool (realFs.unlink s path) = (s2, false) →
          realFs.isFile s2 path = false →
          provisionImage realFs s path tool = (s2, .missingAfterCreate))
      ∧ (tool (realFs.unlink s path) = (s2, false) →
          realFs.isFile s2 path = true →
          provisionImage realFs s path tool = (s2, .created)) := by
  intro s path tool s2
  refine ⟨?_, ?_, ?_⟩
  · simp [realFs]
  · intro h1 h2
    rw [provisionImage]
    simp only [h1, Bool.false_eq_true, if_false, h2]
  · intro h1 h2
    rw [provisionImage]
    simp only [h1, Bool.false_eq_true, if_false, h2, if_true]

/-- C8 witness: a filesystem whose every path holds an old file, and a
tool that reports success without creating anything: the old image is
gone when the tool runs, and provisioning fails afterwards. -/
theorem c8_provision_postcondition_witness :
    (realFs.unlink (fun _ => some "old") "a.img") "a.img" = none
    ∧ provisionImage realFs (fun _ => some "old") "a.img" noopTool
      = (realFs.unlink (fun _ => some "old") "a.img", .missingAfterCreate) :=
  ⟨(c8_provision_postcondition (fun _ => some "old") "a.img" noopTool
      (realFs.unlink (fun _ => some "old") "a.img")).1,
   (c8_provision_postcondition (fun _ => some "old") "a.img" noopTool
      (realFs.unlink (fun _ => some "old") "a.img")).2.1 rfl (by decide)⟩

/-! ## C9: the two launch templates -/

lemma driveTok_data_head (img : String) : (driveTok img).data.head? = some 'f' := by
  unfold driveTok
  rw [String.data_append, String.data_append]
  rfl

lemma ne_driveTok (t : String) (img : String) (h : t.data.head? ≠ some 'f') :
    t ≠ driveTok img :=
  fun he => h (by rw [he, driveTok_data_head])

/-- C9: the Windows template contains neither the `-enable-kvm`
hardware-acceleration flag nor the guest-agent virtserialport/spicevmc
arguments, all three of which appear in the Linux template; and both
templates carry the very ISO path and (inside the shared `-drive`
argument) the very image path passed in.  The hypotheses only rule out
the degenerate case of the memory or ISO argument spelling one of those
three flag strings itself. -/
theorem c9_windows_template_omissions :
    ∀ (mem iso img : String),
      mem ≠ "-enable-kvm" → mem ≠ vserialTok → mem ≠ spiceTok →
      iso ≠ "-enable-kvm" → iso ≠ vserialTok → iso ≠ spiceTok →
      ("-enable-kvm" ∉ cmdWindowsTokens mem iso img
        ∧ vserialTok ∉ cmdWindowsTokens mem iso img
        ∧ spiceTok ∉ cmdWindowsTokens mem iso img)
      ∧ ("-enable-kvm" ∈ cmdLinuxTokens mem iso img
        ∧ vserialTok ∈ cmdLinuxTokens mem iso img
        ∧ spiceTok ∈ cmdLinuxTokens mem iso img)
      ∧ (iso ∈ cmdLinuxTokens mem iso img ∧ iso ∈ cmdWindowsTokens mem iso img
        ∧ driveTok img ∈ cmdLinuxTokens mem iso img
        ∧ driveTok img ∈ cmdWindowsTokens mem iso img) := by
  intro mem iso img hm1 hm2 hm3 hi1 hi2 hi3
  refine ⟨⟨?_, ?_, ?_⟩, ⟨?_, ?_, ?_⟩, ?_, ?_, ?_, ?_⟩
  · intro h
    simp only [cmdWindowsTokens, List.mem_cons, List.not_mem_nil, or_false] at h
    rcases h with h | h | h | h | h | h | h | h | h | h | h | h | h | h | h | h |
      h | h | h | h | h | h | h | h | h
    all_goals first
      | exact absurd h (by decide)
      | exact hm1 h.symm
      | exact hi1 h.symm
      | exact absurd h (ne_driveTok "-enable-kvm" img (by decide))
  · intro h
    simp only [cmdWindowsTokens, List.mem_cons, List.not_mem_nil, or_false] at h
    rcases h with h | h | h | h | h | h | h | h | h | h | h | h | h | h | h | h |
      h | h | h | h | h | h | h | h | h
    all_goals first
      | exact absurd h (by decide)
      | exact hm2 h.symm
      | exact hi2 h.symm
      | exact absurd h (ne_driveTok vserialTok img (by decide))
  · intro h
    simp only [cmdWindowsTokens, List.mem_cons, List.not_mem_nil, or_false] at h
    rcases h with h | h | h | h | h | h | h | h | h | h | h | h | h | h | h | h |
      h | h | h | h | h | h | h | h | h
    all_goals first
      | exact absurd h (by decide)
      | exact hm3 h.symm
      | exact hi3 h.symm
      | exact absurd h (ne_driveTok spiceTok img (by decide))
  · simp [cmdLinuxTokens]
  · simp [cmdLinuxTokens]
  · simp [cmdLinuxTokens]
  · simp [cmdLinuxTokens]
  · simp [cmdWindowsTokens]
  · simp [cmdLinuxTokens]
  · simp [cmdWindowsTokens]

/-- C9 witness: the template comparison at concrete launch parameters. -/
theorem c9_windows_template_omissions_witness :
    ("-enable-kvm" ∉ cmdWindowsTokens "2048" "arch.iso" "arch.img"
      ∧ vserialTok ∉ cmdWindowsTokens "2048" "arch.iso" "arch.img"
      ∧ spiceTok ∉ cmdWindowsTokens "2048" "arch.iso" "arch.img")
    ∧ ("-enable-kvm" ∈ cmdLinuxTokens "2048" "arch.iso" "arch.img"
      ∧ vserialTok ∈ cmdLinuxTokens "2048" "arch.iso" "arch.img"
      ∧ spiceTok ∈ cmdLinuxTokens "2048" "arch.iso" "arch.img")
    ∧ ("arch.iso" ∈ cmdLinuxTokens "2048" "arch.iso" "arch.img"
      ∧ "arch.iso" ∈ cmdWindowsTokens "2048" "arch.iso" "arch.img"
      ∧ driveTok "arch.img" ∈ cmdLinuxTokens "2048" "arch.iso" "arch.img"
      ∧ driveTok "arch.img" ∈ cmdWindowsTokens "2048" "arch.iso" "arch.img") :=
  c9_windows_template_omissions "2048" "arch.iso" "arch.img"
    (by decide) (by decide) (by decide) (by decide) (by decide) (by decide)

end BuildImage
